import Mathlib

/-!
Verification of the GPU info store of `agent/gpu/nvidia_gpu_manager.go`
(amazon-ecs-agent).

The Go component is a small state container: a struct `NvidiaGPUManager`
holding a driver version string, a runtime (nvidia-docker) version string
and a list of GPU ID strings, guarded by a `sync.RWMutex`, plus an
`Initialize` method that optionally seeds the struct from a JSON snapshot
file at a fixed path.

We shallow-embed the component:
* the struct becomes a Lean structure (the mutex is a concurrency artefact
  and has no counterpart in the pure embedding);
* setters and getters become pure state transformers / projections;
* the filesystem is modelled by an explicit `FileState` describing what
  `os.Stat` / `os.Open` / `ioutil.ReadAll` would observe at the snapshot
  path, and the file content — when readable — is modelled at the level of
  an abstract JSON syntax tree (`Json`) together with a `malformed`
  constructor for byte strings rejected by `encoding/json`'s validity
  check;
* `json.Unmarshal` into `NvidiaGPUManager` is embedded following Go's
  documented behaviour for this struct shape: a top-level JSON object (or
  `null`) is required, object keys are matched against the struct's json
  tags (exact match first, then case-insensitive), unknown keys are
  ignored, later duplicate keys overwrite earlier ones, `null` leaves a
  string field untouched but sets a slice field to nil, and a type
  mismatch yields an error;
* `errors.Wrapf(err, msg)` becomes string concatenation `msg ++ ": " ++ err`;
* `Initialize` (named `Init` here) becomes a function from a `FileState`
  and a pre-state to a pair of an optional error and a post-state, so that
  "the store is unchanged on failure" is a real statement.
-/

namespace ECSAgent.GPU

/-- Abstract JSON values, as produced by `encoding/json` after its syntax
check succeeds. Number representation is irrelevant to this component
(no numeric field exists), so an `Int` payload suffices. -/
inductive Json where
  | null : Json
  | bool : Bool → Json
  | num : Int → Json
  | str : String → Json
  | arr : List Json → Json
  | obj : List (String × Json) → Json

/-- The struct `NvidiaGPUManager` of the Go source, without the
`sync.RWMutex` field (pure embedding). Field order and names follow the
source; `NvidiaDockerVersion` is the runtime version's wire/in-memory
name. -/
structure NvidiaGPUManager where
  DriverVersion : String
  NvidiaDockerVersion : String
  GPUIDs : List String
  deriving Repr, DecidableEq

/-- `NewNvidiaGPUManager` returns a zero-valued struct (Go
`&NvidiaGPUManager{}`); the same zero value is the local
`var nvidiaGPUInfo NvidiaGPUManager` that `Initialize` decodes into. -/
def NewNvidiaGPUManager : NvidiaGPUManager :=
  { DriverVersion := "", NvidiaDockerVersion := "", GPUIDs := [] }

/-- `SetGPUIDs` sets the GPUIDs (the lock only serialises access and is
not modelled). -/
def NvidiaGPUManager.SetGPUIDs (n : NvidiaGPUManager) (gpuIDs : List String) :
    NvidiaGPUManager :=
  { n with GPUIDs := gpuIDs }

/-- `GetGPUIDs` returns the GPUIDs. -/
def NvidiaGPUManager.GetGPUIDs (n : NvidiaGPUManager) : List String :=
  n.GPUIDs

/-- `SetDriverVersion` is a setter for the nvidia driver version. -/
def NvidiaGPUManager.SetDriverVersion (n : NvidiaGPUManager) (version : String) :
    NvidiaGPUManager :=
  { n with DriverVersion := version }

/-- `GetDriverVersion` is a getter for the nvidia driver version. -/
def NvidiaGPUManager.GetDriverVersion (n : NvidiaGPUManager) : String :=
  n.DriverVersion

/-- `SetRuntimeVersion` is a setter for the nvidia docker version. -/
def NvidiaGPUManager.SetRuntimeVersion (n : NvidiaGPUManager) (version : String) :
    NvidiaGPUManager :=
  { n with NvidiaDockerVersion := version }

/-- `GetRuntimeVersion` is a getter for the nvidia docker version. -/
def NvidiaGPUManager.GetRuntimeVersion (n : NvidiaGPUManager) : String :=
  n.NvidiaDockerVersion

/-- Which struct field a JSON object key binds to. -/
inductive FieldTag where
  | driver | docker | gpuids
  deriving Repr, DecidableEq

/-- Key matching of `encoding/json` for this struct: the three exported
fields carry json tags `DriverVersion`, `NvidiaDockerVersion`, `GPUIDs`;
an exact tag match is preferred, otherwise a case-insensitive one; any
other key (including the unexported `lock`) is ignored. -/
def matchTag (k : String) : Option FieldTag :=
  if k = "DriverVersion" then some FieldTag.driver
  else if k = "NvidiaDockerVersion" then some FieldTag.docker
  else if k = "GPUIDs" then some FieldTag.gpuids
  else if k.toLower = "driverversion" then some FieldTag.driver
  else if k.toLower = "nvidiadockerversion" then some FieldTag.docker
  else if k.toLower = "gpuids" then some FieldTag.gpuids
  else none

/-- Decoding one element of a `[]string`: a JSON string is taken as-is, a
JSON `null` has no effect on the zero-valued element (Go leaves the
`""`), anything else is an `UnmarshalTypeError`. -/
def decodeStringElem : Json → Except String String
  | Json.str s => Except.ok s
  | Json.null => Except.ok ""
  | _ => Except.error "json: cannot unmarshal value into Go value of type string"

/-- Decoding a JSON array into a `[]string`, element by element. Go keeps
decoding after the first `UnmarshalTypeError` but reports the first
error; stopping at the first error yields the same error/success verdict
and the same value on success. -/
def decodeStringList : List Json → Except String (List String)
  | [] => Except.ok []
  | v :: vs =>
    match decodeStringElem v with
    | Except.error e => Except.error e
    | Except.ok s =>
      match decodeStringList vs with
      | Except.error e => Except.error e
      | Except.ok rest => Except.ok (s :: rest)

/-- Decoding a JSON value into the `DriverVersion` string field: `null`
leaves the field untouched, a string replaces it, anything else is an
`UnmarshalTypeError`. -/
def setDriverField (acc : NvidiaGPUManager) : Json → Except String NvidiaGPUManager
  | Json.null => Except.ok acc
  | Json.str s => Except.ok { acc with DriverVersion := s }
  | _ => Except.error
      "json: cannot unmarshal value into Go struct field NvidiaGPUManager.DriverVersion of type string"

/-- Decoding a JSON value into the `NvidiaDockerVersion` string field. -/
def setDockerField (acc : NvidiaGPUManager) : Json → Except String NvidiaGPUManager
  | Json.null => Except.ok acc
  | Json.str s => Except.ok { acc with NvidiaDockerVersion := s }
  | _ => Except.error
      "json: cannot unmarshal value into Go struct field NvidiaGPUManager.NvidiaDockerVersion of type string"

/-- Decoding a JSON value into the `GPUIDs` slice field: `null` sets the
slice to nil, an array is decoded element by element, anything else is an
`UnmarshalTypeError`. -/
def setGPUIDsField (acc : NvidiaGPUManager) : Json → Except String NvidiaGPUManager
  | Json.null => Except.ok { acc with GPUIDs := [] }
  | Json.arr vs =>
    match decodeStringList vs with
    | Except.error e => Except.error e
    | Except.ok ids => Except.ok { acc with GPUIDs := ids }
  | _ => Except.error
      "json: cannot unmarshal value into Go struct field NvidiaGPUManager.GPUIDs of type []string"

/-- Processing one `key: value` pair of the top-level JSON object against
the accumulating struct. Unknown keys are skipped; `null` leaves a string
field untouched but sets the slice field to nil; a value of the wrong
type is an `UnmarshalTypeError`. -/
def setJSONField (acc : NvidiaGPUManager) (k : String) (v : Json) :
    Except String NvidiaGPUManager :=
  match matchTag k with
  | none => Except.ok acc
  | some FieldTag.driver => setDriverField acc v
  | some FieldTag.docker => setDockerField acc v
  | some FieldTag.gpuids => setGPUIDsField acc v

/-- Folding the key/value pairs of the top-level object in order (later
duplicate keys overwrite earlier ones, as in Go). -/
def unmarshalFields (acc : NvidiaGPUManager) :
    List (String × Json) → Except String NvidiaGPUManager
  | [] => Except.ok acc
  | (k, v) :: rest =>
    match setJSONField acc k v with
    | Except.error e => Except.error e
    | Except.ok acc' => unmarshalFields acc' rest

/-- `json.Unmarshal` of a syntactically valid JSON value into a
`*NvidiaGPUManager` holding `dst`: a top-level `null` is a no-op, a
top-level object is folded field by field, any other top-level value is
an `UnmarshalTypeError`. -/
def jsonUnmarshalNvidia (j : Json) (dst : NvidiaGPUManager) :
    Except String NvidiaGPUManager :=
  match j with
  | Json.null => Except.ok dst
  | Json.obj fields => unmarshalFields dst fields
  | _ => Except.error
      "json: cannot unmarshal value into Go value of type gpu.NvidiaGPUManager"

/-- Content of a readable snapshot file: either bytes rejected by
`encoding/json`'s syntax check (with the syntax-error message), or a
syntactically valid JSON value. -/
inductive Content where
  | malformed : String → Content
  | valid : Json → Content

/-- `json.Unmarshal` on raw file content: `Unmarshal` first validates the
whole input, failing with a `SyntaxError` on malformed bytes, and only
then decodes. -/
def unmarshalContent (c : Content) (dst : NvidiaGPUManager) :
    Except String NvidiaGPUManager :=
  match c with
  | Content.malformed e => Except.error e
  | Content.valid j => jsonUnmarshalNvidia j dst

/-- What the filesystem presents at `/var/lib/ecs/gpu/nvidia-gpu-info.json`:
* `absent`: `os.Stat` fails with an `IsNotExist` error, and `os.Open`
  would fail with the carried not-found error;
* `statError e`: `os.Stat` fails with an error `e` that is not
  `IsNotExist` (e.g. permission denied on the directory) and `os.Open`
  fails with the same cause;
* `openError e`: the file exists for `os.Stat`, but `os.Open` or
  `ioutil.ReadAll` fails with error `e`;
* `present c`: the file exists and its full content reads as `c`. -/
inductive FileState where
  | absent : String → FileState
  | statError : String → FileState
  | openError : String → FileState
  | present : Content → FileState

/-- `CheckForGPUInfoFile`: `os.Stat` on the fixed path, returning
`!os.IsNotExist(err)` — so only the genuinely-missing case reports
`false`; a nil error or any other stat error reports `true`. -/
def CheckForGPUInfoFile : FileState → Bool
  | FileState.absent _ => false
  | FileState.statError _ => true
  | FileState.openError _ => true
  | FileState.present _ => true

/-- The package variable `GPUInfoFileExists`, initialised to
`CheckForGPUInfoFile` (test seams are not exercised here). -/
def GPUInfoFileExists : FileState → Bool :=
  CheckForGPUInfoFile

/-- `GetGPUInfo`: `os.Open` then `ioutil.ReadAll` on the fixed path,
returning the raw bytes or the first error. -/
def GetGPUInfo : FileState → Except String Content
  | FileState.absent e => Except.error e
  | FileState.statError e => Except.error e
  | FileState.openError e => Except.error e
  | FileState.present c => Except.ok c

/-- The package variable `GetGPUInfoJSON`, initialised to `GetGPUInfo`. -/
def GetGPUInfoJSON : FileState → Except String Content :=
  GetGPUInfo

/-- `errors.Wrapf(err, msg)` of github.com/pkg/errors renders as
`msg ++ ": " ++ err`. -/
def wrapf (err msg : String) : String :=
  msg ++ ": " ++ err

/-- The `Initialize` method of the Go source, as a pure transformer: given
the filesystem state and the receiver's pre-state, it returns the error
result (`none` = nil error) together with the receiver's post-state. If
the existence check passes, the file is read and unmarshalled into a
fresh zero struct, then the three values are published into the receiver
through the setters, in source order; on any failure the receiver is
returned untouched. -/
def NvidiaGPUManager.Init (fs : FileState) (n : NvidiaGPUManager) :
    Option String × NvidiaGPUManager :=
  if GPUInfoFileExists fs then
    match GetGPUInfoJSON fs with
    | Except.error err => (some (wrapf err "could not read GPU file content"), n)
    | Except.ok gpuJSON =>
      match unmarshalContent gpuJSON NewNvidiaGPUManager with
      | Except.error err => (some (wrapf err "could not unmarshal GPU file content"), n)
      | Except.ok nvidiaGPUInfo =>
        let n := n.SetDriverVersion nvidiaGPUInfo.GetDriverVersion
        let n := n.SetGPUIDs nvidiaGPUInfo.GetGPUIDs
        let n := n.SetRuntimeVersion nvidiaGPUInfo.GetRuntimeVersion
        (none, n)
  else (none, n)

/-! ### Helper lemmas shared by several claims -/

/-- A JSON array whose elements are exactly the strings `ids` decodes to
`ids`, preserving order. -/
theorem decodeStringList_map_str (ids : List String) :
    decodeStringList (ids.map Json.str) = Except.ok ids := by
  induction ids with
  | nil => rfl
  | cons x xs ih => simp [decodeStringList, decodeStringElem, ih]

/-- If the snapshot decodes successfully to `m`, `Initialize` succeeds and
the post-state is exactly `m`, whatever the pre-state was: the three
setters overwrite every field. -/
theorem init_present_ok (c : Content) (m n : NvidiaGPUManager)
    (h : unmarshalContent c NewNvidiaGPUManager = Except.ok m) :
    NvidiaGPUManager.Init (FileState.present c) n = (none, m) := by
  cases m with
  | mk d r ids =>
    simp [NvidiaGPUManager.Init, GPUInfoFileExists, CheckForGPUInfoFile,
      GetGPUInfoJSON, GetGPUInfo, h, NvidiaGPUManager.SetDriverVersion,
      NvidiaGPUManager.SetGPUIDs, NvidiaGPUManager.SetRuntimeVersion,
      NvidiaGPUManager.GetDriverVersion, NvidiaGPUManager.GetGPUIDs,
      NvidiaGPUManager.GetRuntimeVersion]

/-- If the snapshot fails to decode, `Initialize` reports the wrapped
unmarshal error and the pre-state is returned untouched. -/
theorem init_present_err (c : Content) (e : String) (n : NvidiaGPUManager)
    (h : unmarshalContent c NewNvidiaGPUManager = Except.error e) :
    NvidiaGPUManager.Init (FileState.present c) n =
      (some (wrapf e "could not unmarshal GPU file content"), n) := by
  simp [NvidiaGPUManager.Init, GPUInfoFileExists, CheckForGPUInfoFile,
    GetGPUInfoJSON, GetGPUInfo, h]

/-- The canonical three-field snapshot object decodes, from the zero
struct, to exactly its three field values. -/
theorem unmarshal_canonical (d r : String) (ids : List String) :
    jsonUnmarshalNvidia
      (Json.obj
        [("DriverVersion", Json.str d),
         ("NvidiaDockerVersion", Json.str r),
         ("GPUIDs", Json.arr (ids.map Json.str))])
      NewNvidiaGPUManager
    = Except.ok { DriverVersion := d, NvidiaDockerVersion := r, GPUIDs := ids } := by
  simp [jsonUnmarshalNvidia, unmarshalFields, setJSONField, matchTag,
    setDriverField, setDockerField, setGPUIDsField,
    decodeStringList_map_str, NewNvidiaGPUManager]

/-! ### Claim theorems -/

/-- Claim C1: for every valid JSON snapshot with fields `DriverVersion`
(string), `NvidiaDockerVersion` (string) and `GPUIDs` (array of strings),
and whatever the store held before, `Initialize` returns no error and
afterwards `GetDriverVersion`, `GetRuntimeVersion`, `GetGPUIDs` return
exactly the decoded values of those three fields. -/
theorem init_valid_snapshot_publishes_decoded_values
    (d r : String) (ids : List String) (n : NvidiaGPUManager) :
    (NvidiaGPUManager.Init
        (FileState.present (Content.valid (Json.obj
          [("DriverVersion", Json.str d),
           ("NvidiaDockerVersion", Json.str r),
           ("GPUIDs", Json.arr (ids.map Json.str))])))
        n).fst = none ∧
    (NvidiaGPUManager.Init
        (FileState.present (Content.valid (Json.obj
          [("DriverVersion", Json.str d),
           ("NvidiaDockerVersion", Json.str r),
           ("GPUIDs", Json.arr (ids.map Json.str))])))
        n).snd.GetDriverVersion = d ∧
    (NvidiaGPUManager.Init
        (FileState.present (Content.valid (Json.obj
          [("DriverVersion", Json.str d),
           ("NvidiaDockerVersion", Json.str r),
           ("GPUIDs", Json.arr (ids.map Json.str))])))
        n).snd.GetRuntimeVersion = r ∧
    (NvidiaGPUManager.Init
        (FileState.present (Content.valid (Json.obj
          [("DriverVersion", Json.str d),
           ("NvidiaDockerVersion", Json.str r),
           ("GPUIDs", Json.arr (ids.map Json.str))])))
        n).snd.GetGPUIDs = ids := by
  have h := init_present_ok
    (Content.valid (Json.obj
      [("DriverVersion", Json.str d),
       ("NvidiaDockerVersion", Json.str r),
       ("GPUIDs", Json.arr (ids.map Json.str))]))
    { DriverVersion := d, NvidiaDockerVersion := r, GPUIDs := ids } n
    (by simpa [unmarshalContent] using unmarshal_canonical d r ids)
  rw [h]
  exact ⟨rfl, rfl, rfl, rfl⟩

/-- Claim C2: when the snapshot file does not exist, `Initialize` on a
freshly constructed store returns no error, and afterwards
`GetDriverVersion` and `GetRuntimeVersion` return the empty string and
`GetGPUIDs` returns the empty sequence. -/
theorem init_absent_file_zero_values (e : String) :
    (NvidiaGPUManager.Init (FileState.absent e) NewNvidiaGPUManager).fst = none ∧
    (NvidiaGPUManager.Init (FileState.absent e) NewNvidiaGPUManager).snd.GetDriverVersion = "" ∧
    (NvidiaGPUManager.Init (FileState.absent e) NewNvidiaGPUManager).snd.GetRuntimeVersion = "" ∧
    (NvidiaGPUManager.Init (FileState.absent e) NewNvidiaGPUManager).snd.GetGPUIDs = [] :=
  ⟨rfl, rfl, rfl, rfl⟩

/-- Claim C3: when the snapshot file exists but its content does not
decode to the expected shape (malformed bytes, or valid JSON of the wrong
type), `Initialize` returns an error and the store's three fields are
exactly their pre-call values — no setter touches the live store. -/
theorem init_decode_failure_is_atomic (c : Content) (n : NvidiaGPUManager)
    (h : ∃ e, unmarshalContent c NewNvidiaGPUManager = Except.error e) :
    (∃ e', (NvidiaGPUManager.Init (FileState.present c) n).fst = some e') ∧
    (NvidiaGPUManager.Init (FileState.present c) n).snd = n := by
  obtain ⟨e, he⟩ := h
  rw [init_present_err c e n he]
  exact ⟨⟨wrapf e "could not unmarshal GPU file content", rfl⟩, rfl⟩

/-- Witness for C3 at a concrete input: a store holding non-zero values
and a malformed snapshot file. -/
theorem init_decode_failure_is_atomic_witness :
    (∃ e', (NvidiaGPUManager.Init
        (FileState.present (Content.malformed "unexpected end of JSON input"))
        { DriverVersion := "450.80.02", NvidiaDockerVersion := "2.5.0",
          GPUIDs := ["GPU-0"] }).fst = some e') ∧
    (NvidiaGPUManager.Init
        (FileState.present (Content.malformed "unexpected end of JSON input"))
        { DriverVersion := "450.80.02", NvidiaDockerVersion := "2.5.0",
          GPUIDs := ["GPU-0"] }).snd =
      { DriverVersion := "450.80.02", NvidiaDockerVersion := "2.5.0",
        GPUIDs := ["GPU-0"] } :=
  init_decode_failure_is_atomic
    (Content.malformed "unexpected end of JSON input")
    { DriverVersion := "450.80.02", NvidiaDockerVersion := "2.5.0",
      GPUIDs := ["GPU-0"] }
    ⟨"unexpected end of JSON input", rfl⟩

/-- Claim C4: `Initialize` fails exactly when the existence check passes
and either the file read fails (error wrapped as
"could not read GPU file content") or the decode fails (error wrapped as
"could not unmarshal GPU file content"); in every other case it returns
no error, and in particular a missing file is not an error. -/
theorem init_error_characterisation (fs : FileState) (n : NvidiaGPUManager) :
    ((NvidiaGPUManager.Init fs n).fst ≠ none ↔
      GPUInfoFileExists fs = true ∧
        ((∃ e, GetGPUInfoJSON fs = Except.error e) ∨
         (∃ c, GetGPUInfoJSON fs = Except.ok c ∧
            ∃ e, unmarshalContent c NewNvidiaGPUManager = Except.error e))) ∧
    (∀ e, GetGPUInfoJSON fs = Except.error e → GPUInfoFileExists fs = true →
      (NvidiaGPUManager.Init fs n).fst =
        some (wrapf e "could not read GPU file content")) ∧
    (∀ c e, GetGPUInfoJSON fs = Except.ok c →
        unmarshalContent c NewNvidiaGPUManager = Except.error e →
      (NvidiaGPUManager.Init fs n).fst =
        some (wrapf e "could not unmarshal GPU file content")) ∧
    (∀ e, (NvidiaGPUManager.Init (FileState.absent e) n).fst = none) := by
  refine ⟨?_, ?_, ?_, fun _ => rfl⟩
  · cases fs with
    | absent e => simp [NvidiaGPUManager.Init, GPUInfoFileExists, CheckForGPUInfoFile]
    | statError e =>
      simp [NvidiaGPUManager.Init, GPUInfoFileExists, CheckForGPUInfoFile,
        GetGPUInfoJSON, GetGPUInfo]
    | openError e =>
      simp [NvidiaGPUManager.Init, GPUInfoFileExists, CheckForGPUInfoFile,
        GetGPUInfoJSON, GetGPUInfo]
    | present c =>
      cases hu : unmarshalContent c NewNvidiaGPUManager with
      | error e =>
        rw [init_present_err c e n hu]
        simp [GPUInfoFileExists, CheckForGPUInfoFile, GetGPUInfoJSON, GetGPUInfo, hu]
      | ok m =>
        rw [init_present_ok c m n hu]
        simp [GPUInfoFileExists, CheckForGPUInfoFile, GetGPUInfoJSON, GetGPUInfo, hu]
  · intro e he hex
    cases fs with
    | absent e' => simp [GPUInfoFileExists, CheckForGPUInfoFile] at hex
    | statError e' =>
      simp only [GetGPUInfoJSON, GetGPUInfo, Except.error.injEq] at he
      subst he; rfl
    | openError e' =>
      simp only [GetGPUInfoJSON, GetGPUInfo, Except.error.injEq] at he
      subst he; rfl
    | present c => simp [GetGPUInfoJSON, GetGPUInfo] at he
  · intro c e hc hu
    cases fs with
    | absent e' => simp [GetGPUInfoJSON, GetGPUInfo] at hc
    | statError e' => simp [GetGPUInfoJSON, GetGPUInfo] at hc
    | openError e' => simp [GetGPUInfoJSON, GetGPUInfo] at hc
    | present c' =>
      simp only [GetGPUInfoJSON, GetGPUInfo, Except.ok.injEq] at hc
      subst hc
      rw [init_present_err c' e n hu]

/-- Witness for C4 at a concrete input: a stat error other than
not-exist makes the read fail and `Initialize` report the wrapped
file-read error. -/
theorem init_error_characterisation_witness :
    (NvidiaGPUManager.Init
        (FileState.statError "stat /var/lib/ecs/gpu: permission denied")
        NewNvidiaGPUManager).fst =
      some (wrapf "stat /var/lib/ecs/gpu: permission denied"
        "could not read GPU file content") :=
  (init_error_characterisation
      (FileState.statError "stat /var/lib/ecs/gpu: permission denied")
      NewNvidiaGPUManager).2.1
    "stat /var/lib/ecs/gpu: permission denied" rfl rfl

/-- Claim C5: set-then-get round-trips with no intervening writer: for
every store state, `SetGPUIDs` then `GetGPUIDs` returns exactly the
sequence passed in (same elements, same order), and likewise for
`SetDriverVersion`/`GetDriverVersion` and
`SetRuntimeVersion`/`GetRuntimeVersion`. -/
theorem set_get_roundtrip (n : NvidiaGPUManager) (ids : List String)
    (dv rv : String) :
    (n.SetGPUIDs ids).GetGPUIDs = ids ∧
    (n.SetDriverVersion dv).GetDriverVersion = dv ∧
    (n.SetRuntimeVersion rv).GetRuntimeVersion = rv :=
  ⟨rfl, rfl, rfl⟩

/-- Claim C6: each setter modifies only its own field — the other two
fields read back unchanged — so no cross-field constraint is enforced. -/
theorem setters_frame_own_field (n : NvidiaGPUManager) (dv rv : String)
    (ids : List String) :
    ((n.SetDriverVersion dv).GetGPUIDs = n.GetGPUIDs ∧
     (n.SetDriverVersion dv).GetRuntimeVersion = n.GetRuntimeVersion) ∧
    ((n.SetRuntimeVersion rv).GetDriverVersion = n.GetDriverVersion ∧
     (n.SetRuntimeVersion rv).GetGPUIDs = n.GetGPUIDs) ∧
    ((n.SetGPUIDs ids).GetDriverVersion = n.GetDriverVersion ∧
     (n.SetGPUIDs ids).GetRuntimeVersion = n.GetRuntimeVersion) :=
  ⟨⟨rfl, rfl⟩, ⟨rfl, rfl⟩, ⟨rfl, rfl⟩⟩

/-- Claim C7: `Initialize` is not guarded against re-entry. A second call
against an unchanged filesystem returns the same result and leaves the
store in the same state as the first call; and a second call genuinely
re-reads the file: against a (possibly different) filesystem whose
content decodes to `m`, the post-state is `m`, regardless of what the
first call did. -/
theorem init_reentrant (fs fs' : FileState) (n : NvidiaGPUManager) :
    NvidiaGPUManager.Init fs (NvidiaGPUManager.Init fs n).snd =
      NvidiaGPUManager.Init fs n ∧
    (∀ c m, GetGPUInfoJSON fs' = Except.ok c →
        unmarshalContent c NewNvidiaGPUManager = Except.ok m →
      (NvidiaGPUManager.Init fs' (NvidiaGPUManager.Init fs n).snd).snd = m) := by
  constructor
  · cases fs with
    | absent e => rfl
    | statError e => rfl
    | openError e => rfl
    | present c =>
      cases hu : unmarshalContent c NewNvidiaGPUManager with
      | error e => rw [init_present_err c e n hu, init_present_err c e n hu]
      | ok m =>
        rw [init_present_ok c m n hu, init_present_ok c m (n := m) hu]
  · intro c m hc hu
    cases fs' with
    | absent e' => simp [GetGPUInfoJSON, GetGPUInfo] at hc
    | statError e' => simp [GetGPUInfoJSON, GetGPUInfo] at hc
    | openError e' => simp [GetGPUInfoJSON, GetGPUInfo] at hc
    | present c' =>
      simp only [GetGPUInfoJSON, GetGPUInfo, Except.ok.injEq] at hc
      subst hc
      rw [init_present_ok c' m _ hu]

/-- Witness for C7 at a concrete input: first call sees no file, second
call sees an empty-object snapshot and publishes its decode. -/
theorem init_reentrant_witness :
    (NvidiaGPUManager.Init
        (FileState.present (Content.valid (Json.obj [])))
        (NvidiaGPUManager.Init
          (FileState.absent "no such file or directory")
          NewNvidiaGPUManager).snd).snd = NewNvidiaGPUManager :=
  (init_reentrant (FileState.absent "no such file or directory")
      (FileState.present (Content.valid (Json.obj [])))
      NewNvidiaGPUManager).2
    (Content.valid (Json.obj [])) NewNvidiaGPUManager rfl rfl

/-- Claim C9: a valid JSON object that omits some expected keys still
decodes, and `Initialize` overwrites every field of the store with the
decoded value — fields for missing keys are reset to their zero values
even if they held non-zero values before; in particular the empty object
resets the whole store to the zero struct. -/
theorem init_partial_object_overwrites (fields : List (String × Json))
    (m n : NvidiaGPUManager)
    (h : jsonUnmarshalNvidia (Json.obj fields) NewNvidiaGPUManager = Except.ok m) :
    NvidiaGPUManager.Init (FileState.present (Content.valid (Json.obj fields))) n
      = (none, m) ∧
    NvidiaGPUManager.Init (FileState.present (Content.valid (Json.obj []))) n
      = (none, NewNvidiaGPUManager) := by
  constructor
  · exact init_present_ok (Content.valid (Json.obj fields)) m n
      (by simpa [unmarshalContent] using h)
  · exact init_present_ok (Content.valid (Json.obj [])) NewNvidiaGPUManager n rfl

/-- Witness for C9 at a concrete input: a snapshot carrying only
`DriverVersion` resets the runtime version and the GPU ID list of a
non-zero store to their zero values. -/
theorem init_partial_object_overwrites_witness :
    NvidiaGPUManager.Init
        (FileState.present (Content.valid
          (Json.obj [("DriverVersion", Json.str "450.80.02")])))
        { DriverVersion := "old", NvidiaDockerVersion := "2.5.0",
          GPUIDs := ["GPU-0", "GPU-1"] }
      = (none,
          { DriverVersion := "450.80.02", NvidiaDockerVersion := "",
            GPUIDs := [] }) ∧
    NvidiaGPUManager.Init
        (FileState.present (Content.valid (Json.obj [])))
        { DriverVersion := "old", NvidiaDockerVersion := "2.5.0",
          GPUIDs := ["GPU-0", "GPU-1"] }
      = (none, NewNvidiaGPUManager) :=
  init_partial_object_overwrites
    [("DriverVersion", Json.str "450.80.02")]
    { DriverVersion := "450.80.02", NvidiaDockerVersion := "", GPUIDs := [] }
    { DriverVersion := "old", NvidiaDockerVersion := "2.5.0",
      GPUIDs := ["GPU-0", "GPU-1"] }
    rfl

/-- Claim C10: a stat error other than not-exist counts as "file
present", so `Initialize` does not silently succeed: it proceeds to the
read, which fails, and returns the wrapped file-read error while leaving
the store unchanged. -/
theorem stat_error_treated_as_present (e : String) (n : NvidiaGPUManager) :
    GPUInfoFileExists (FileState.statError e) = true ∧
    NvidiaGPUManager.Init (FileState.statError e) n =
      (some (wrapf e "could not read GPU file content"), n) :=
  ⟨rfl, rfl⟩

end ECSAgent.GPU
